import Mathlib

/-!
Verification of the SCIM bulk identity-provisioning processor of the
`gristctl` command-line client, together with the shared HTTP helpers of
package `gristapi`.

The shared HTTP layer (`httpRequest`, `httpGet`, `httpPost`, `httpPatch`,
`httpDelete`, `httpPut`) is embedded directly from the Go source; the
outcome of the HTTP client's `Do` call is modelled as an oracle argument.
The SCIM bulk processor itself (`SCIMBulk`, `SCIMBulkFromJSON`) is not
present in the available source tree — only its test suite is — so it is
modelled from the specification, as flagged on each definition.
-/

namespace Gristctl

/-- Outcome of the Go HTTP client's `Do` call: either a transport error
message, or a response carrying a status code and a body. -/
inductive DoResult where
  | failure (errMsg : String)
  | success (statusCode : Int) (body : String)
deriving Repr, DecidableEq

/-- The HTTP client collaborator, as an oracle: arguments are the verb,
the full URL, the bearer header value and the request body. -/
abbrev HttpClient := String → String → String → String → DoResult

/-- Embedding of `httpRequest` (gristapi): builds the URL
`GRIST_URL ++ "/api/" ++ myRequest`, sets the bearer header from
`GRIST_TOKEN`, sends the request, and on a transport error returns the
error message as body together with status `-10`; otherwise returns the
response body and status code verbatim. -/
def httpRequest (client : HttpClient) (gristURL gristToken : String)
    (action myRequest : String) (data : String) : String × Int :=
  let url := gristURL ++ "/api/" ++ myRequest
  let bearer := "Bearer " ++ gristToken
  match client action url bearer data with
  | .failure err => ("Error sending request " ++ url ++ ": " ++ err, -10)
  | .success statusCode body => (body, statusCode)

/-- Embedding of `httpGet` (gristapi). -/
def httpGet (client : HttpClient) (gristURL gristToken : String)
    (myRequest data : String) : String × Int :=
  httpRequest client gristURL gristToken "GET" myRequest data

/-- Embedding of `httpPost` (gristapi). -/
def httpPost (client : HttpClient) (gristURL gristToken : String)
    (myRequest data : String) : String × Int :=
  httpRequest client gristURL gristToken "POST" myRequest data

/-- Embedding of `httpPatch` (gristapi). -/
def httpPatch (client : HttpClient) (gristURL gristToken : String)
    (myRequest data : String) : String × Int :=
  httpRequest client gristURL gristToken "PATCH" myRequest data

/-- Embedding of `httpDelete` (gristapi). -/
def httpDelete (client : HttpClient) (gristURL gristToken : String)
    (myRequest data : String) : String × Int :=
  httpRequest client gristURL gristToken "DELETE" myRequest data

/-- Embedding of `httpPut` (gristapi). -/
def httpPut (client : HttpClient) (gristURL gristToken : String)
    (myRequest data : String) : String × Int :=
  httpRequest client gristURL gristToken "PUT" myRequest data

/-! ## SCIM bulk data model -/

/-- The SCIM 2.0 bulk-request schema URN (`SCIMBulkRequestSchema`). -/
def SCIMBulkRequestSchema : String :=
  "urn:ietf:params:scim:api:messages:2.0:BulkRequest"

/-- The SCIM 2.0 bulk-response schema URN (`SCIMBulkResponseSchema`). -/
def SCIMBulkResponseSchema : String :=
  "urn:ietf:params:scim:api:messages:2.0:BulkResponse"

/-- Modelled from the spec: one `SCIMBulkOperation` inside a bulk envelope —
a verb, a target path, an optional client correlation token and an opaque
payload (kept here as its serialized form). The implementing Go type is not
in the available source tree. -/
structure SCIMBulkOperation where
  method : String
  path : String
  bulkId : Option String
  data : Option String
deriving Repr, DecidableEq

/-- Modelled from the spec: a `SCIMBulkRequest` envelope — schema URNs, an
optional non-negative failure threshold (`0` meaning absent/unbounded) and
the ordered operation list. The implementing Go type is not in the
available source tree. -/
structure SCIMBulkRequest where
  schemas : List String
  failOnErrors : Nat
  operations : List SCIMBulkOperation
deriving Repr, DecidableEq

/-- Modelled from the spec: one `SCIMBulkOperationResult` — echoed method
and correlation token, the status code as its decimal string, and the
backend or validation payload. The implementing Go type is not in the
available source tree. -/
structure SCIMBulkOperationResult where
  method : String
  bulkId : Option String
  status : String
  response : Option String
deriving Repr, DecidableEq

/-- Modelled from the spec: the `SCIMBulkResponse` envelope. The
implementing Go type is not in the available source tree. -/
structure SCIMBulkResponse where
  schemas : List String
  operations : List SCIMBulkOperationResult
deriving Repr, DecidableEq

/-! ## SCIM bulk processor, modelled from the spec -/

/-- The backend identity-API collaborator seen by the Operation
Dispatcher: verb, request path relative to the API root, optional
serialized body; returns response body and numeric status code. -/
abbrev Backend := String → String → Option String → String × Int

/-- The base SCIM path under the API root that operation paths are joined
onto (the SCIM user endpoints live under `scim/v2`). -/
def scimBasePath : String := "scim/v2"

/-- One backend call as recorded by the dispatch trace: the verb, the
joined request path and the serialized body. -/
structure BackendCall where
  method : String
  url : String
  data : Option String
deriving Repr, DecidableEq

/-- The verbs admitted inside a bulk envelope. -/
def allowedBulkMethods : List String := ["POST", "PUT", "PATCH", "DELETE"]

/-- Modelled from the spec: the Operation Validator (part of the absent
`SCIMBulk` implementation) — an operation is eligible for dispatch exactly
when its method is one of POST, PUT, PATCH, DELETE and its path is
non-empty. -/
def validateOperation (op : SCIMBulkOperation) : Bool :=
  allowedBulkMethods.contains op.method && op.path != ""

/-- Modelled from the spec: the result synthesized for an operation that
fails validation — status `"400"`, method and `bulkId` copied from the
source operation. -/
def invalidOperationResult (op : SCIMBulkOperation) : SCIMBulkOperationResult :=
  { method := op.method
    bulkId := op.bulkId
    status := "400"
    response := some "Invalid operation: method must be POST, PUT, PATCH or DELETE and path must be non-empty" }

/-- The joined request path an operation is dispatched to. -/
def dispatchUrl (op : SCIMBulkOperation) : String :=
  scimBasePath ++ op.path

/-- The backend call issued for an operation that passed validation. -/
def callOf (op : SCIMBulkOperation) : BackendCall :=
  ⟨op.method, dispatchUrl op, op.data⟩

/-- The numeric status code the backend collaborator returns for an
operation's dispatch. -/
def dispatchStatus (backend : Backend) (op : SCIMBulkOperation) : Int :=
  (backend op.method (dispatchUrl op) op.data).2

/-- Modelled from the spec: the Operation Dispatcher (part of the absent
`SCIMBulk` implementation) — one backend call with the operation's verb,
the joined path and the serialized payload; the result echoes method and
`bulkId` and carries the backend status as its decimal string, with the
backend body as payload. -/
def dispatchOperation (backend : Backend) (op : SCIMBulkOperation) :
    SCIMBulkOperationResult :=
  let out := backend op.method (dispatchUrl op) op.data
  { method := op.method
    bulkId := op.bulkId
    status := toString out.2
    response := some out.1 }

/-- The result the aggregator records for one reached operation: the
synthesized 400 result when validation rejects it, the dispatched result
otherwise. -/
def resultOf (backend : Backend) (op : SCIMBulkOperation) :
    SCIMBulkOperationResult :=
  if validateOperation op then dispatchOperation backend op
  else invalidOperationResult op

/-- How much one reached operation adds to the aggregator's failure count:
`1` for a validation rejection, and for a dispatched operation `1` exactly
when its numeric status is at least 400. -/
def failureIncrement (backend : Backend) (op : SCIMBulkOperation) : Nat :=
  if validateOperation op then
    (if 400 ≤ dispatchStatus backend op then 1 else 0)
  else 1

/-- The backend calls one reached operation contributes to the trace: one
call when it is dispatched, none when validation rejects it. -/
def callsOf (op : SCIMBulkOperation) : List BackendCall :=
  if validateOperation op then [callOf op] else []

/-- Modelled from the spec: the Result Aggregator loop (part of the absent
`SCIMBulk` implementation). Walks the operations in order with a running
`failureCount`; for each, the Operation Validator then (when valid) the
Operation Dispatcher; appends the result; and, when `failOnErrors` is
non-zero and the failure count has reached it, halts immediately. Also
records the trace of backend calls made. -/
def runOps (backend : Backend) (failOnErrors : Nat) :
    List SCIMBulkOperation → Nat →
    List SCIMBulkOperationResult × List BackendCall
  | [], _ => ([], [])
  | op :: rest, failureCount =>
    let r := resultOf backend op
    let failureCount' := failureCount + failureIncrement backend op
    if failOnErrors ≠ 0 ∧ failOnErrors ≤ failureCount' then
      ([r], callsOf op)
    else
      let out := runOps backend failOnErrors rest failureCount'
      (r :: out.1, callsOf op ++ out.2)

/-- Modelled from the spec: the structured-entry bulk processor `SCIMBulk`
(absent from the available source tree), instrumented with the backend
call trace. Envelope validation: the schema set must contain the
bulk-request URN, else the call ends with overall status 400 before any
operation is inspected; otherwise the aggregator runs and the overall
status is 200. -/
def SCIMBulkWithTrace (backend : Backend) (request : SCIMBulkRequest) :
    SCIMBulkResponse × Int × List BackendCall :=
  if request.schemas.contains SCIMBulkRequestSchema then
    let out := runOps backend request.failOnErrors request.operations 0
    ({ schemas := [SCIMBulkResponseSchema], operations := out.1 }, 200, out.2)
  else
    ({ schemas := [SCIMBulkResponseSchema], operations := [] }, 400, [])

/-- Modelled from the spec: `SCIMBulk` — the structured-entry bulk
processor's observable outcome (response envelope and overall status). -/
def SCIMBulk (backend : Backend) (request : SCIMBulkRequest) :
    SCIMBulkResponse × Int :=
  ((SCIMBulkWithTrace backend request).1, (SCIMBulkWithTrace backend request).2.1)

/-- Modelled from the spec: the single synthesized result returned when
the raw-text entrypoint is given unparseable text. -/
def jsonParseErrorResult : SCIMBulkOperationResult :=
  { method := "", bulkId := none, status := "400"
    response := some "Invalid JSON format" }

/-- Modelled from the spec: the raw-text entrypoint `SCIMBulkFromJSON`
(absent from the available source tree), instrumented with the backend
call trace; the text parser is an oracle argument. A parse failure
terminates with overall status 400 and a response holding exactly one
synthesized result, bypassing the aggregator; otherwise the parsed
request is processed by `SCIMBulk`. -/
def SCIMBulkFromJSONWithTrace (parseRequest : String → Option SCIMBulkRequest)
    (backend : Backend) (body : String) :
    SCIMBulkResponse × Int × List BackendCall :=
  match parseRequest body with
  | none =>
    ({ schemas := [SCIMBulkResponseSchema], operations := [jsonParseErrorResult] },
      400, [])
  | some request => SCIMBulkWithTrace backend request

/-- Modelled from the spec: `SCIMBulkFromJSON` — the raw-text entrypoint's
observable outcome. -/
def SCIMBulkFromJSON (parseRequest : String → Option SCIMBulkRequest)
    (backend : Backend) (body : String) : SCIMBulkResponse × Int :=
  ((SCIMBulkFromJSONWithTrace parseRequest backend body).1,
    (SCIMBulkFromJSONWithTrace parseRequest backend body).2.1)

/-- The cumulative failure-count contribution of a list of operations. -/
def sumIncrements (backend : Backend) (l : List SCIMBulkOperation) : Nat :=
  (l.map (failureIncrement backend)).sum

/-- Modelled from the spec: the backend collaborator as realized by the
source verb helpers — each allowed bulk verb is routed through the
corresponding helper (`httpPost`, `httpPut`, `httpPatch`, `httpDelete`)
against the configured API root, with an absent payload sent as the empty
body. -/
def gristBackend (client : HttpClient) (gristURL gristToken : String) : Backend :=
  fun method url data =>
    match method with
    | "POST" => httpPost client gristURL gristToken url (data.getD "")
    | "PUT" => httpPut client gristURL gristToken url (data.getD "")
    | "PATCH" => httpPatch client gristURL gristToken url (data.getD "")
    | "DELETE" => httpDelete client gristURL gristToken url (data.getD "")
    | _ => ("", 0)

/-- The body `httpRequest` returns when the transport cannot complete the
call: the error message prefixed with the failing URL. -/
def transportErrorBody (gristURL myRequest errMsg : String) : String :=
  "Error sending request " ++ (gristURL ++ "/api/" ++ myRequest) ++ ": " ++ errMsg

/-! ## Concrete sample values -/

/-- A client whose transport always fails. -/
def demoDownClient : HttpClient := fun _ _ _ _ => .failure "connection refused"

/-- A backend that accepts every call with 201. -/
def demoOkBackend : Backend := fun _ _ _ => ("created", 201)

/-- A second backend, pointwise equal to `demoOkBackend`. -/
def demoOkBackendCopy : Backend := fun _ _ _ => ("created", 201)

/-- A backend that rejects every call with 400. -/
def demoFailBackend : Backend := fun _ _ _ => ("bad request", 400)

/-- A backend whose transport is unreachable: every call yields the
error-mapped status `-10`. -/
def demoDownBackend : Backend := fun _ _ _ => ("connection refused", -10)

/-- A valid POST operation with a correlation token. -/
def demoPostOp : SCIMBulkOperation :=
  { method := "POST", path := "/Users", bulkId := some "bulk1"
    data := some "userName=testuser" }

/-- An operation with the disallowed GET verb. -/
def demoGetOp : SCIMBulkOperation :=
  { method := "GET", path := "/Users", bulkId := none, data := none }

/-- An operation with an empty path. -/
def demoNoPathOp : SCIMBulkOperation :=
  { method := "POST", path := "", bulkId := some "bulk2", data := none }

/-- A well-formed single-operation request. -/
def demoValidReq : SCIMBulkRequest :=
  { schemas := [SCIMBulkRequestSchema], failOnErrors := 0
    operations := [demoPostOp] }

/-- A request whose schema set lacks the bulk-request URN. -/
def demoBadSchemaReq : SCIMBulkRequest :=
  { schemas := ["invalid:schema"], failOnErrors := 0
    operations := [demoPostOp] }

/-- Four POST operations with a failure threshold of 2. -/
def demoFailOnErrorsReq : SCIMBulkRequest :=
  { schemas := [SCIMBulkRequestSchema], failOnErrors := 2
    operations := [demoPostOp, demoPostOp, demoPostOp, demoPostOp] }

/-- A parser oracle that rejects every text. -/
def demoRejectingParser : String → Option SCIMBulkRequest := fun _ => none

/-! ## Helper lemmas -/

theorem runOps_nil (backend : Backend) (fo fc : Nat) :
    runOps backend fo [] fc = ([], []) := rfl

theorem runOps_cons (backend : Backend) (fo fc : Nat) (op : SCIMBulkOperation)
    (rest : List SCIMBulkOperation) :
    runOps backend fo (op :: rest) fc =
      if fo ≠ 0 ∧ fo ≤ fc + failureIncrement backend op then
        ([resultOf backend op], callsOf op)
      else
        (resultOf backend op ::
            (runOps backend fo rest (fc + failureIncrement backend op)).1,
          callsOf op ++ (runOps backend fo rest (fc + failureIncrement backend op)).2) :=
  rfl

/-- The aggregator's output is always the image of a prefix of the
operation list: some `n` operations were reached, each contributing its
result (in order) and its backend calls; `n` is the full length when the
threshold is unset, and a strict prefix arises only when the threshold was
reached. -/
theorem runOps_take_spec (backend : Backend) (fo : Nat) :
    ∀ (ops : List SCIMBulkOperation) (fc : Nat),
      ∃ n, n ≤ ops.length ∧
        (runOps backend fo ops fc).1 = (ops.take n).map (resultOf backend) ∧
        (runOps backend fo ops fc).2 = ((ops.take n).map callsOf).flatten ∧
        (fo = 0 → n = ops.length) ∧
        (n < ops.length → fo ≠ 0 ∧ fo ≤ fc + sumIncrements backend (ops.take n))
  | [], fc => ⟨0, by simp [runOps_nil]⟩
  | op :: rest, fc => by
    rw [runOps_cons]
    by_cases h : fo ≠ 0 ∧ fo ≤ fc + failureIncrement backend op
    · refine ⟨1, by simp, ?_, ?_, ?_, ?_⟩
      · simp [h]
      · simp [h]
      · intro h0; exact absurd h0 h.1
      · intro _
        refine ⟨h.1, ?_⟩
        simpa [sumIncrements] using h.2
    · obtain ⟨n, hn, h1, h2, h0, hlt⟩ :=
        runOps_take_spec backend fo rest (fc + failureIncrement backend op)
      refine ⟨n + 1, by simpa using Nat.succ_le_succ hn, ?_, ?_, ?_, ?_⟩
      · simp [h, h1]
      · simp [h, h2]
      · intro hfo; simp [h0 hfo]
      · intro hlt'
        have hn' : n < rest.length := by simpa using hlt'
        obtain ⟨hfo, hle⟩ := hlt hn'
        refine ⟨hfo, ?_⟩
        simp only [List.take_succ_cons, sumIncrements, List.map_cons, List.sum_cons]
        simp only [sumIncrements] at hle
        omega

/-- When every operation of a non-empty prefix passes validation and is
failed by the backend, and the threshold equals the remaining failure
budget, the aggregator processes exactly that prefix — one result and one
backend call per prefix operation — and never touches the tail. -/
theorem runOps_all_fail (backend : Backend) (fo : Nat) :
    ∀ (pre tail : List SCIMBulkOperation) (fc : Nat),
      fo ≠ 0 → fc + pre.length = fo → pre ≠ [] →
      (∀ op ∈ pre, validateOperation op = true ∧ 400 ≤ dispatchStatus backend op) →
      runOps backend fo (pre ++ tail) fc =
        (pre.map (resultOf backend), pre.map callOf)
  | [], _, _, _, _, hne, _ => absurd rfl hne
  | op :: pre', tail, fc, hfo, hlen, _, hall => by
    have hop := hall op (List.mem_cons_self op pre')
    have hinc : failureIncrement backend op = 1 := by
      simp [failureIncrement, hop.1, hop.2]
    have hcalls : callsOf op = [callOf op] := by simp [callsOf, hop.1]
    rw [List.cons_append, runOps_cons, hinc]
    cases pre' with
    | nil =>
      have hle : fo ≤ fc + 1 := by simp at hlen; omega
      rw [if_pos ⟨hfo, hle⟩]
      simp [hcalls]
    | cons q qs =>
      have hcond : ¬(fo ≠ 0 ∧ fo ≤ fc + 1) := by
        rintro ⟨-, hle⟩
        simp at hlen
        omega
      rw [if_neg hcond]
      have hrec := runOps_all_fail backend fo (q :: qs) tail (fc + 1) hfo
        (by simp at hlen ⊢; omega) (by simp)
        (fun o ho => hall o (List.mem_cons_of_mem op ho))
      simp only [List.cons_append] at hrec
      simp [hrec, hcalls]

/-- With the threshold unset (zero), every operation is processed. -/
theorem runOps_fo_zero (backend : Backend) :
    ∀ (ops : List SCIMBulkOperation) (fc : Nat),
      runOps backend 0 ops fc =
        (ops.map (resultOf backend), (ops.map callsOf).flatten)
  | [], _ => rfl
  | op :: rest, fc => by
    rw [runOps_cons]
    have hcond : ¬((0 : Nat) ≠ 0 ∧ (0 : Nat) ≤ fc + failureIncrement backend op) := by
      simp
    rw [if_neg hcond]
    simp [runOps_fo_zero backend rest (fc + failureIncrement backend op)]

/-! ## Claim theorems -/

/-- C3: the overall call status is 400 exactly when the envelope itself is
bad — the schema set lacks the bulk-request URN, or the raw-text
entrypoint was given unparseable text; in the bad-schema case the call
ends before any operation is inspected or dispatched (no results, no
backend calls); a valid envelope always yields overall status 200. -/
theorem scim_overall_status_envelope (backend : Backend) (req : SCIMBulkRequest)
    (parseRequest : String → Option SCIMBulkRequest) (txt : String) :
    ((SCIMBulk backend req).2 = 400 ↔
      req.schemas.contains SCIMBulkRequestSchema = false) ∧
    (req.schemas.contains SCIMBulkRequestSchema = false →
      SCIMBulkWithTrace backend req =
        ({ schemas := [SCIMBulkResponseSchema], operations := [] }, 400, [])) ∧
    (req.schemas.contains SCIMBulkRequestSchema = true →
      (SCIMBulk backend req).2 = 200) ∧
    ((SCIMBulkFromJSON parseRequest backend txt).2 = 400 ↔
      (parseRequest txt = none ∨
        ∃ r, parseRequest txt = some r ∧
          r.schemas.contains SCIMBulkRequestSchema = false)) := by
  have hmain : ∀ r : SCIMBulkRequest,
      ((SCIMBulk backend r).2 = 400 ↔
        r.schemas.contains SCIMBulkRequestSchema = false) := by
    intro r
    by_cases hs : r.schemas.contains SCIMBulkRequestSchema = true
    · have hm : SCIMBulkRequestSchema ∈ r.schemas := by simpa using hs
      simp [SCIMBulk, SCIMBulkWithTrace, hm]
    · simp only [Bool.not_eq_true] at hs
      have hm : SCIMBulkRequestSchema ∉ r.schemas := by simpa using hs
      simp [SCIMBulk, SCIMBulkWithTrace, hm]
  refine ⟨hmain req, ?_, ?_, ?_⟩
  · intro hs
    have hm : SCIMBulkRequestSchema ∉ req.schemas := by simpa using hs
    simp [SCIMBulkWithTrace, hm]
  · intro hs
    have hm : SCIMBulkRequestSchema ∈ req.schemas := by simpa using hs
    simp [SCIMBulk, SCIMBulkWithTrace, hm]
  · cases hp : parseRequest txt with
    | none => simp [SCIMBulkFromJSON, SCIMBulkFromJSONWithTrace, hp]
    | some r =>
      have : (SCIMBulkFromJSON parseRequest backend txt).2 = (SCIMBulk backend r).2 := by
        simp [SCIMBulkFromJSON, SCIMBulkFromJSONWithTrace, SCIMBulk, hp]
      rw [this, hmain r]
      simp [hp]

/-- Witness for C3 at concrete inputs: a bad-schema request yields 400 and
a valid one yields 200. -/
theorem scim_overall_status_envelope_witness :
    (SCIMBulk demoOkBackend demoBadSchemaReq).2 = 400 ∧
    (SCIMBulk demoOkBackend demoValidReq).2 = 200 :=
  ⟨(scim_overall_status_envelope demoOkBackend demoBadSchemaReq
      demoRejectingParser "x").1.mpr (by decide),
    (scim_overall_status_envelope demoOkBackend demoValidReq
      demoRejectingParser "x").2.2.1 (by decide)⟩

/-- C5: a raw-text input that fails to parse yields overall status 400 and
a response whose operation list is exactly one synthesized result with
status "400"; the aggregator is bypassed (no backend call, and the outcome
is independent of the backend). -/
theorem scim_from_json_parse_failure
    (parseRequest : String → Option SCIMBulkRequest) (backend : Backend)
    (txt : String) (h : parseRequest txt = none) :
    SCIMBulkFromJSONWithTrace parseRequest backend txt =
      ({ schemas := [SCIMBulkResponseSchema]
         operations := [jsonParseErrorResult] }, 400, []) ∧
    (SCIMBulkFromJSON parseRequest backend txt).2 = 400 ∧
    (SCIMBulkFromJSON parseRequest backend txt).1.operations =
      [jsonParseErrorResult] ∧
    jsonParseErrorResult.status = "400" ∧
    (∀ backend' : Backend,
      SCIMBulkFromJSONWithTrace parseRequest backend' txt =
        SCIMBulkFromJSONWithTrace parseRequest backend txt) := by
  refine ⟨?_, ?_, ?_, rfl, ?_⟩ <;>
    simp [SCIMBulkFromJSONWithTrace, SCIMBulkFromJSON, h]

/-- Witness for C5 at a concrete unparseable text. -/
theorem scim_from_json_parse_failure_witness :
    SCIMBulkFromJSONWithTrace demoRejectingParser demoOkBackend "invalid json" =
      ({ schemas := [SCIMBulkResponseSchema]
         operations := [jsonParseErrorResult] }, 400, []) :=
  (scim_from_json_parse_failure demoRejectingParser demoOkBackend
    "invalid json" rfl).1

/-- C9: the bulk processor is a deterministic function of the request and
of the transport collaborator's responses alone — the transport is an
explicit argument, no state persists between calls, and two backends with
identical responses produce identical response envelopes, overall statuses
and call traces. -/
theorem scim_bulk_deterministic (req : SCIMBulkRequest) (b1 b2 : Backend)
    (h : ∀ m u d, b1 m u d = b2 m u d) :
    SCIMBulkWithTrace b1 req = SCIMBulkWithTrace b2 req ∧
    SCIMBulk b1 req = SCIMBulk b2 req := by
  have hb : b1 = b2 := funext fun m => funext fun u => funext fun d => h m u d
  subst hb
  exact ⟨rfl, rfl⟩

/-- Witness for C9: two pointwise-equal backends give identical outcomes
on a concrete request. -/
theorem scim_bulk_deterministic_witness :
    SCIMBulkWithTrace demoOkBackend demoValidReq =
      SCIMBulkWithTrace demoOkBackendCopy demoValidReq :=
  (scim_bulk_deterministic demoValidReq demoOkBackend demoOkBackendCopy
    (fun _ _ _ => rfl)).1

/-- C4: the Operation Validator rejects an operation exactly when its
method is outside POST/PUT/PATCH/DELETE or its path is empty; a rejected
operation yields a synthesized result with status "400" copying method and
`bulkId`, counts as exactly one failure toward the threshold, and
contributes no backend call (the Dispatcher is never invoked for it). -/
theorem scim_operation_validator (op : SCIMBulkOperation) (backend : Backend)
    (fo fc : Nat) (rest : List SCIMBulkOperation) :
    (validateOperation op = false ↔
      (op.method ∉ allowedBulkMethods ∨ op.path = "")) ∧
    (validateOperation op = false →
      (invalidOperationResult op).status = "400" ∧
      (invalidOperationResult op).method = op.method ∧
      (invalidOperationResult op).bulkId = op.bulkId ∧
      failureIncrement backend op = 1 ∧
      runOps backend fo (op :: rest) fc =
        (if fo ≠ 0 ∧ fo ≤ fc + 1 then ([invalidOperationResult op], [])
         else (invalidOperationResult op ::
            (runOps backend fo rest (fc + 1)).1,
          (runOps backend fo rest (fc + 1)).2))) := by
  constructor
  · constructor
    · intro hinv
      by_cases hm : op.method ∈ allowedBulkMethods
      · by_cases hp : op.path = ""
        · exact Or.inr hp
        · exfalso
          have : validateOperation op = true := by
            simp [validateOperation, hm, hp]
          simp [this] at hinv
      · exact Or.inl hm
    · intro h
      rcases h with hm | hp
      · simp [validateOperation, hm]
      · simp [validateOperation, hp]
  · intro hinv
    have hi1 : failureIncrement backend op = 1 := by
      simp [failureIncrement, hinv]
    refine ⟨rfl, rfl, rfl, hi1, ?_⟩
    rw [runOps_cons, hi1]
    by_cases hc : fo ≠ 0 ∧ fo ≤ fc + 1 <;>
      simp [hc, resultOf, hinv, callsOf]

/-- Witness for C4: GET and empty-path operations are rejected with a
synthesized "400" result echoing method and token. -/
theorem scim_operation_validator_witness :
    validateOperation demoGetOp = false ∧
    validateOperation demoNoPathOp = false ∧
    (invalidOperationResult demoGetOp).status = "400" ∧
    (invalidOperationResult demoGetOp).method = "GET" := by
  have h1 := (scim_operation_validator demoGetOp demoOkBackend 0 0 []).1.mpr
    (by decide)
  have h2 := (scim_operation_validator demoNoPathOp demoOkBackend 0 0 []).1.mpr
    (by decide)
  have h3 := (scim_operation_validator demoGetOp demoOkBackend 0 0 []).2 h1
  exact ⟨h1, h2, h3.1, h3.2.1⟩

/-- C7: a `bulkId` supplied on a request operation appears unchanged on
that operation's response result, an operation without one produces a
result without one, for dispatched and validation-synthesized results
alike, and positionally across any processed list. -/
theorem scim_bulkId_echoed (backend : Backend) (op : SCIMBulkOperation)
    (fo fc : Nat) (ops : List SCIMBulkOperation) :
    (resultOf backend op).bulkId = op.bulkId ∧
    (dispatchOperation backend op).bulkId = op.bulkId ∧
    (invalidOperationResult op).bulkId = op.bulkId ∧
    (op.bulkId = none → (resultOf backend op).bulkId = none) ∧
    (∀ i (h1 : i < (runOps backend fo ops fc).1.length)
        (h2 : i < ops.length),
      ((runOps backend fo ops fc).1[i]).bulkId = (ops[i]).bulkId) := by
  have hres : ∀ o : SCIMBulkOperation, (resultOf backend o).bulkId = o.bulkId := by
    intro o
    by_cases hv : validateOperation o <;>
      simp [resultOf, hv, dispatchOperation, invalidOperationResult]
  refine ⟨hres op, rfl, rfl, fun h => (hres op).trans h, ?_⟩
  intro i h1 h2
  obtain ⟨n, hn, hres1, -, -, -⟩ := runOps_take_spec backend fo ops fc
  simp only [hres1, List.getElem_map, List.getElem_take]
  exact hres _

/-- Witness for C7: on a concrete single-operation run the token is echoed
and a token-less operation yields a token-less result. -/
theorem scim_bulkId_echoed_witness :
    (resultOf demoOkBackend demoPostOp).bulkId = some "bulk1" ∧
    (resultOf demoOkBackend demoGetOp).bulkId = none := by
  have h1 := (scim_bulkId_echoed demoOkBackend demoPostOp 0 0 []).1
  have h2 := (scim_bulkId_echoed demoOkBackend demoGetOp 0 0 []).2.2.2.1 rfl
  exact ⟨h1.trans rfl, h2⟩

/-- C8: every result's status field is the decimal string of the numeric
code produced by the backend or by validation, while the failure-threshold
bookkeeping is performed on the numeric code. -/
theorem scim_status_decimal_string (backend : Backend) (op : SCIMBulkOperation) :
    (validateOperation op = true →
      (resultOf backend op).status = toString (dispatchStatus backend op) ∧
      failureIncrement backend op =
        (if 400 ≤ dispatchStatus backend op then 1 else 0)) ∧
    (validateOperation op = false →
      (resultOf backend op).status = toString (400 : Int) ∧
      failureIncrement backend op = 1) ∧
    (dispatchStatus backend op = 200 →
      (dispatchOperation backend op).status = "200") := by
  have hdef : (dispatchOperation backend op).status =
      toString (dispatchStatus backend op) := rfl
  refine ⟨fun hv => ⟨?_, ?_⟩, fun hv => ⟨?_, ?_⟩, fun hs => ?_⟩
  · simp [resultOf, hv, dispatchOperation, dispatchStatus]
  · simp [failureIncrement, hv]
  · simp only [resultOf, hv, Bool.false_eq_true, if_false]
    show ("400" : String) = toString (400 : Int)
    decide
  · simp [failureIncrement, hv]
  · rw [hdef, hs]
    decide

/-- Witness for C8: a backend 200 stringifies to "200" and a validation
failure to "400". -/
theorem scim_status_decimal_string_witness :
    (resultOf demoFailBackend demoPostOp).status = toString (400 : Int) ∧
    (resultOf demoOkBackend demoGetOp).status = toString (400 : Int) := by
  have h1 := ((scim_status_decimal_string demoFailBackend demoPostOp).1
    (by decide)).1
  have h2 := ((scim_status_decimal_string demoOkBackend demoGetOp).2.1
    (by decide)).1
  exact ⟨h1.trans (by decide), h2⟩

/-- C1: with a positive failure threshold `k`, when the first `k`
operations each fail, processing halts right after the `k`-th result:
exactly `k` results and exactly `k` backend calls are produced, the tail
beyond `k` has no influence at all, and with the threshold absent (zero)
every operation is processed. -/
theorem scim_failOnErrors_halts (backend : Backend) (req : SCIMBulkRequest)
    (k : Nat)
    (hschema : req.schemas.contains SCIMBulkRequestSchema = true)
    (hk : req.failOnErrors = k) (hkpos : 0 < k)
    (hkN : k ≤ req.operations.length)
    (hfail : ∀ op ∈ req.operations.take k,
      validateOperation op = true ∧ 400 ≤ dispatchStatus backend op) :
    ((SCIMBulkWithTrace backend req).1.operations.length = k ∧
      (SCIMBulkWithTrace backend req).2.2.length = k ∧
      SCIMBulkWithTrace backend req =
        SCIMBulkWithTrace backend
          { req with operations := req.operations.take k }) ∧
    (∀ (backend' : Backend) (req' : SCIMBulkRequest),
      req'.schemas.contains SCIMBulkRequestSchema = true →
      req'.failOnErrors = 0 →
      (SCIMBulkWithTrace backend' req').1.operations.length =
        req'.operations.length) := by
  have hm : SCIMBulkRequestSchema ∈ req.schemas := by simpa using hschema
  have hk0 : k ≠ 0 := Nat.pos_iff_ne_zero.mp hkpos
  have hpre : (req.operations.take k).length = k := by
    simp [Nat.min_eq_left hkN]
  have hne : req.operations.take k ≠ [] := by
    intro h
    rw [h] at hpre
    simp at hpre
    omega
  have hrun := runOps_all_fail backend k (req.operations.take k)
    (req.operations.drop k) 0 hk0 (by omega) hne hfail
  rw [List.take_append_drop] at hrun
  have hrun2 := runOps_all_fail backend k (req.operations.take k) [] 0 hk0
    (by omega) hne hfail
  rw [List.append_nil] at hrun2
  constructor
  · refine ⟨?_, ?_, ?_⟩
    · simp [SCIMBulkWithTrace, hm, hk, hrun, hpre, hkN]
    · simp [SCIMBulkWithTrace, hm, hk, hrun, hpre, hkN]
    · simp [SCIMBulkWithTrace, hm, hk, hrun, hrun2]
  · intro backend' req' hs' h0
    have hm' : SCIMBulkRequestSchema ∈ req'.schemas := by simpa using hs'
    simp [SCIMBulkWithTrace, hm', h0, runOps_fo_zero]

/-- Witness for C1: four failing POSTs with threshold 2 yield exactly two
results and two backend calls. -/
theorem scim_failOnErrors_halts_witness :
    (SCIMBulkWithTrace demoFailBackend demoFailOnErrorsReq).1.operations.length = 2 ∧
    (SCIMBulkWithTrace demoFailBackend demoFailOnErrorsReq).2.2.length = 2 := by
  have h := scim_failOnErrors_halts demoFailBackend demoFailOnErrorsReq 2
    (by decide) rfl (by decide) (by decide) (by decide)
  exact ⟨h.1.1, h.1.2.1⟩

/-- C2: for a request that passes envelope validation, the response's
operation list is the in-order image of a prefix of the request's
operations — one result per reached operation, positionally matched, never
longer than the request, full-length when the threshold is unset, and
strictly shorter only when a non-zero threshold halted processing. -/
theorem scim_results_positional (backend : Backend) (req : SCIMBulkRequest)
    (hschema : req.schemas.contains SCIMBulkRequestSchema = true) :
    ∃ n, n ≤ req.operations.length ∧
      (SCIMBulk backend req).1.operations =
        (req.operations.take n).map (resultOf backend) ∧
      (∀ i (h1 : i < (SCIMBulk backend req).1.operations.length)
          (h2 : i < req.operations.length),
        (SCIMBulk backend req).1.operations[i] =
          resultOf backend req.operations[i]) ∧
      (SCIMBulk backend req).1.operations.length ≤ req.operations.length ∧
      (req.failOnErrors = 0 →
        (SCIMBulk backend req).1.operations.length =
          req.operations.length) ∧
      ((SCIMBulk backend req).1.operations.length < req.operations.length →
        req.failOnErrors ≠ 0) := by
  have hm : SCIMBulkRequestSchema ∈ req.schemas := by simpa using hschema
  obtain ⟨n, hn, h1, h2, h0, hlt⟩ :=
    runOps_take_spec backend req.failOnErrors req.operations 0
  have hops : (SCIMBulk backend req).1.operations =
      (runOps backend req.failOnErrors req.operations 0).1 := by
    simp [SCIMBulk, SCIMBulkWithTrace, hm]
  have hlen : (SCIMBulk backend req).1.operations.length =
      min n req.operations.length := by
    rw [hops, h1]
    simp
  refine ⟨n, hn, by rw [hops, h1], ?_, ?_, ?_, ?_⟩
  · intro i hi1 hi2
    simp only [hops, h1, List.getElem_map, List.getElem_take]
  · rw [hlen]
    omega
  · intro hfo
    rw [hlen, h0 hfo]
    omega
  · intro hshort hfo
    rw [hlen] at hshort
    have := h0 hfo
    omega

/-- Witness for C2 at a concrete valid one-operation request. -/
theorem scim_results_positional_witness :
    ∃ n, n ≤ demoValidReq.operations.length ∧
      (SCIMBulk demoOkBackend demoValidReq).1.operations =
        (demoValidReq.operations.take n).map (resultOf demoOkBackend) ∧
      (∀ i (_h1 : i < (SCIMBulk demoOkBackend demoValidReq).1.operations.length)
          (_h2 : i < demoValidReq.operations.length),
        (SCIMBulk demoOkBackend demoValidReq).1.operations[i] =
          resultOf demoOkBackend demoValidReq.operations[i]) ∧
      (SCIMBulk demoOkBackend demoValidReq).1.operations.length ≤
        demoValidReq.operations.length ∧
      (demoValidReq.failOnErrors = 0 →
        (SCIMBulk demoOkBackend demoValidReq).1.operations.length =
          demoValidReq.operations.length) ∧
      ((SCIMBulk demoOkBackend demoValidReq).1.operations.length <
          demoValidReq.operations.length →
        demoValidReq.failOnErrors ≠ 0) :=
  scim_results_positional demoOkBackend demoValidReq (by decide)

/-- C6: an operation that passes validation is dispatched as exactly one
backend request — the operation's method against the base SCIM path joined
with its path, with its payload as the body; a transport-level failure
(status `-10`) is recorded in that operation's result alone and the
remaining operations are still processed. -/
theorem scim_dispatch_one_call (backend : Backend) (op : SCIMBulkOperation)
    (fo fc : Nat) (rest : List SCIMBulkOperation)
    (hvalid : validateOperation op = true) :
    (runOps backend fo [op] fc).2 =
      [{ method := op.method, url := scimBasePath ++ op.path
         data := op.data }] ∧
    (runOps backend fo [op] fc).1 = [dispatchOperation backend op] ∧
    ((backend op.method (scimBasePath ++ op.path) op.data).2 = -10 →
      (dispatchOperation backend op).status = "-10" ∧
      (¬(fo ≠ 0 ∧ fo ≤ fc) →
        runOps backend fo (op :: rest) fc =
          (dispatchOperation backend op :: (runOps backend fo rest fc).1,
            { method := op.method, url := scimBasePath ++ op.path
              data := op.data } :: (runOps backend fo rest fc).2))) := by
  have hcall : callOf op =
      { method := op.method, url := scimBasePath ++ op.path
        data := op.data } := rfl
  have hcalls : callsOf op = [callOf op] := by simp [callsOf, hvalid]
  refine ⟨?_, ?_, ?_⟩
  · rw [runOps_cons]
    by_cases hc : fo ≠ 0 ∧ fo ≤ fc + failureIncrement backend op <;>
      simp [hc, hcalls, hcall, runOps_nil]
  · rw [runOps_cons]
    by_cases hc : fo ≠ 0 ∧ fo ≤ fc + failureIncrement backend op <;>
      simp [hc, resultOf, hvalid, runOps_nil]
  · intro h10
    have hst : dispatchStatus backend op = -10 := h10
    have h400 : ¬((400 : Int) ≤ -10) := by decide
    have hinc : failureIncrement backend op = 0 := by
      simp [failureIncrement, hvalid, hst, h400]
    constructor
    · have hdef : (dispatchOperation backend op).status =
          toString (dispatchStatus backend op) := rfl
      rw [hdef, hst]
      decide
    · intro hcond
      rw [runOps_cons, hinc]
      rw [if_neg (by simpa using hcond)]
      simp [resultOf, hvalid, hcalls, hcall]

/-- Witness for C6: a valid POST against an unreachable transport produces
one backend call and a result carrying status "-10". -/
theorem scim_dispatch_one_call_witness :
    (runOps demoDownBackend 0 [demoPostOp] 0).2 =
      [{ method := demoPostOp.method
         url := scimBasePath ++ demoPostOp.path
         data := demoPostOp.data }] ∧
    (dispatchOperation demoDownBackend demoPostOp).status = "-10" := by
  have h := scim_dispatch_one_call demoDownBackend demoPostOp 0 0 []
    (by decide)
  exact ⟨h.1, (h.2.2 rfl).1⟩

/-- C10: when the HTTP client's send fails, `httpRequest` returns the
error message as body with status `-10` (a total function — no panic),
every verb helper propagates that pair unchanged, and `-10` is the status
a dispatched bulk operation's result carries when the backend is
unreachable. -/
theorem httpRequest_transport_failure (client : HttpClient)
    (gristURL gristToken errMsg : String)
    (hcl : ∀ action url bearer data,
      client action url bearer data = .failure errMsg) :
    (∀ action myRequest data,
      httpRequest client gristURL gristToken action myRequest data =
        (transportErrorBody gristURL myRequest errMsg, -10)) ∧
    (∀ myRequest data, httpGet client gristURL gristToken myRequest data =
      (transportErrorBody gristURL myRequest errMsg, -10)) ∧
    (∀ myRequest data, httpPost client gristURL gristToken myRequest data =
      (transportErrorBody gristURL myRequest errMsg, -10)) ∧
    (∀ myRequest data, httpPatch client gristURL gristToken myRequest data =
      (transportErrorBody gristURL myRequest errMsg, -10)) ∧
    (∀ myRequest data, httpDelete client gristURL gristToken myRequest data =
      (transportErrorBody gristURL myRequest errMsg, -10)) ∧
    (∀ myRequest data, httpPut client gristURL gristToken myRequest data =
      (transportErrorBody gristURL myRequest errMsg, -10)) ∧
    (∀ op : SCIMBulkOperation, validateOperation op = true →
      (resultOf (gristBackend client gristURL gristToken) op).status = "-10") := by
  have hreq : ∀ action myRequest data,
      httpRequest client gristURL gristToken action myRequest data =
        (transportErrorBody gristURL myRequest errMsg, -10) := by
    intro action myRequest data
    simp [httpRequest, hcl, transportErrorBody]
  refine ⟨hreq, fun m d => hreq "GET" m d, fun m d => hreq "POST" m d,
    fun m d => hreq "PATCH" m d, fun m d => hreq "DELETE" m d,
    fun m d => hreq "PUT" m d, ?_⟩
  intro op hv
  have hm : op.method ∈ allowedBulkMethods := by
    simp only [validateOperation, Bool.and_eq_true] at hv
    simpa using hv.1
  have hsts : dispatchStatus (gristBackend client gristURL gristToken) op = -10 := by
    simp only [allowedBulkMethods, List.mem_cons, List.mem_singleton,
      List.not_mem_nil, or_false] at hm
    rcases hm with h | h | h | h <;>
      simp [dispatchStatus, gristBackend, h, httpPost, httpPut, httpPatch,
        httpDelete, hreq]
  have hdef : (dispatchOperation (gristBackend client gristURL gristToken) op).status =
      toString (dispatchStatus (gristBackend client gristURL gristToken) op) := rfl
  simp only [resultOf, hv, if_true]
  rw [hdef, hsts]
  decide

/-- Witness for C10: with a client that always fails, `httpPost` returns
the error body with `-10`, and a dispatched bulk POST carries "-10". -/
theorem httpRequest_transport_failure_witness :
    httpPost demoDownClient "host" "tok" "scim/v2/Users" "" =
      (transportErrorBody "host" "scim/v2/Users" "connection refused", -10) ∧
    (resultOf (gristBackend demoDownClient "host" "tok") demoPostOp).status =
      "-10" := by
  have h := httpRequest_transport_failure demoDownClient "host" "tok"
    "connection refused" (fun _ _ _ _ => rfl)
  exact ⟨h.2.2.1 "scim/v2/Users" "", h.2.2.2.2.2.2 demoPostOp (by decide)⟩

end Gristctl
